import Mathlib

/-!
Shallow embedding of the comment-management API core
(`src/comments/views.py`, `src/public/permissions.py`).

The repository ships only the request handlers and the reference
(allow-all) permission policy.  The collaborators they call —
the `Comment` model with its manager queries and `validate_json`,
the target resolver `get_content_type_and_target_or_none`, the
permission registry, and the external sanitizer — are not under
`src/`; those are modelled from the spec and carry a
`Modelled from the spec:` doc comment.
-/

/-- A stored comment record.  Fields follow the spec data model (§3):
store-assigned identifier `pk`, the target foreign-key pair
`contentType`/`objectPk`, author identity `user`, nullable parent
reference, sanitized body text `comment`, the soft-delete flag
`isActive` (the code writes `comment.is_active`), and a store-assigned
creation timestamp `created`. -/
structure Comment where
  pk : Nat
  contentType : Nat
  objectPk : Nat
  user : Nat
  parent : Option Nat
  comment : String
  isActive : Bool
  created : Nat
deriving Repr, DecidableEq

/-- The comment store: the list of records plus the store-assigned
counters for the next primary key and the next creation timestamp. -/
structure Store where
  comments : List Comment
  nextPk : Nat
  nextTime : Nat
deriving Repr, DecidableEq

/-- Root-level permission policy interface
(`can_list_comments`, `can_create_comment`), each a pure predicate over
(request identity, content_type, object_pk). -/
structure RootPerms where
  can_list_comments : Nat → Nat → Nat → Bool
  can_create_comment : Nat → Nat → Nat → Bool

/-- Detail-level permission policy interface
(`can_get_comment`, `can_update_comment`, `can_delete_comment`), each a
pure predicate over (request identity, content_type, object_pk,
comment_id). -/
structure DetailPerms where
  can_get_comment : Nat → Nat → Nat → Nat → Bool
  can_update_comment : Nat → Nat → Nat → Nat → Bool
  can_delete_comment : Nat → Nat → Nat → Nat → Bool

/-- The process environment a handler runs in: the set of resolvable
(content_type, object_pk) pairs known to the target resolver, and the
policy registry's two role objects. -/
structure Env where
  targets : List (Nat × Nat)
  rootPerms : RootPerms
  detailPerms : DetailPerms

/-- The parsed JSON request body.  The handlers only read the
`comment` and `parentID` keys (`body.get("comment", "")`,
`body.get("parentID", None)`); each is absent or present. -/
structure ReqBody where
  comment : Option String
  parentID : Option Nat
deriving Repr, DecidableEq

/-- An authenticated HTTP request: the requester identity
(`request.user`) and the raw body's parse outcome — `none` models a
body on which `json.loads` raises. -/
structure Request where
  user : Nat
  body : Option ReqBody

/-- A Python exception escaping a handler.  The only statement in the
handlers that can raise on bad input is `json.loads(request.body)`. -/
inductive PyExn where
  | jsonDecodeError
deriving Repr, DecidableEq

/-- An HTTP response as built by the handlers: the JSON error envelope
of `_build_error_response`, a 200 `JSONResponse` carrying a comment or
a queryset, the standard 404 of `get_object_or_404`, the bare 204, and
`HttpResponseNotModified` (304). -/
inductive Response where
  | error (message : String) (status : Nat)
  | jsonComment (c : Comment)
  | jsonList (cs : List Comment)
  | http404
  | noContent
  | notModified
deriving Repr, DecidableEq

/-- HTTP status code of a response. -/
def Response.status : Response → Nat
  | .error _ s => s
  | .jsonComment _ => 200
  | .jsonList _ => 200
  | .http404 => 404
  | .noContent => 204
  | .notModified => 304

/-- Outcome of running one handler: either a response together with
the store it leaves behind, or an uncaught exception. -/
abbrev HResult := Except PyExn (Response × Store)

/-- Modelled from the spec: `get_content_type_and_target_or_none`
(`comments/target.py`, not under `src/`). §4.1: maps the
(content_type, object_pk) pair to the target entity when the
content-type is a known comment-enabled kind and the object exists,
and signals not-found otherwise, never throwing.  The target itself is
opaque (§3), so we represent it by its identifying pair. -/
def get_content_type_and_target_or_none (env : Env) (ct pk : Nat) :
    Option (Nat × Nat) :=
  if env.targets.contains (ct, pk) then some (ct, pk) else none

/-- Modelled from the spec: the sanitizer (`bleach.clean` +
`bleach.linkify` behind `_sanitize_and_linkify`) is an external
black-box pure text transform (§4.2) that strips disallowed markup
(safe defaults: no tags) and can reduce an input to the empty string —
§8 pins that a whitespace-only body sanitizes to empty.  We model it
as deleting `<...>` tag spans and trimming surrounding whitespace;
link detection adds no markup in this model. -/
def stripTagsAux : List Char → Bool → List Char
  | [], _ => []
  | c :: rest, false =>
      if c = '<' then stripTagsAux rest true else c :: stripTagsAux rest false
  | c :: rest, true =>
      if c = '>' then stripTagsAux rest false else stripTagsAux rest true

/-- Whitespace recognized by the sanitizer model. -/
def isSpaceChar (c : Char) : Bool :=
  c = ' ' || c = '\t' || c = '\n' || c = '\r'

/-- Drop leading and trailing whitespace from a character list. -/
def trimChars (l : List Char) : List Char :=
  ((l.dropWhile isSpaceChar).reverse.dropWhile isSpaceChar).reverse

/-- Modelled from the spec: see `stripTagsAux`.  The handler-level
`_sanitize_and_linkify` text transform. -/
def sanitize_and_linkify (text : String) : String :=
  String.mk (trimChars (stripTagsAux text.toList false))

/-- Modelled from the spec: `Comment.validate_json` (in
`comments/models.py`, not under `src/`).  §4.5 create: "Validate
against the comment schema (required fields present, body satisfies
length/content rules post-sanitization)"; §4.2 names the rule
non-empty-after-sanitization — an empty comment value "must be treated
as a validation failure".  Returns the `(is_valid, err)` pair the
handlers destructure. -/
def Comment.validate_json (body : ReqBody) : Bool × String :=
  match body.comment with
  | none => (false, "comment field is required")
  | some s => if s = "" then (false, "comment must be non-empty") else (true, "")

/-- Relation ordering comments by creation time ascending. -/
def createdLe (a b : Comment) : Prop := a.created ≤ b.created

instance : DecidableRel createdLe := fun a b => Nat.decLe a.created b.created

instance : IsTotal Comment createdLe := ⟨fun a b => Nat.le_total a.created b.created⟩

instance : IsTrans Comment createdLe := ⟨fun _ _ _ h h' => Nat.le_trans h h'⟩

/-- Modelled from the spec: the base queryset `Comment.objects` with
the model's default ordering — §4.3 / §8: comments are returned
"ordered by creation time ascending" (the ordering lives in the
missing `comments/models.py`). -/
def Store.objects (s : Store) : List Comment :=
  s.comments.insertionSort createdLe

/-- The `.for_model(target)` manager filter: comments attached to the
given (content_type, object_pk) target. -/
def qsForModel (ct pk : Nat) (qs : List Comment) : List Comment :=
  qs.filter fun c => c.contentType == ct && c.objectPk == pk

/-- The `.active()` manager filter: comments whose active flag is set. -/
def qsActive (qs : List Comment) : List Comment :=
  qs.filter fun c => c.isActive

/-- A `.filter(id=pk).first()` / `get_object_or_404(qs, pk=pk)` lookup
on a queryset: the first record with the given primary key, if any. -/
def qsGet (qs : List Comment) (pk : Nat) : Option Comment :=
  qs.find? fun c => c.pk == pk

/-- Modelled from the spec: `Comment.objects.create(...)` — the store
assigns the identifier and the creation timestamp (§3) and the new
record starts with the active flag set (defaults true). -/
def Store.createComment (s : Store) (ct pk user : Nat) (parent : Option Nat)
    (text : String) : Comment × Store :=
  let c : Comment :=
    ⟨s.nextPk, ct, pk, user, parent, text, true, s.nextTime⟩
  (c, ⟨s.comments ++ [c], s.nextPk + 1, s.nextTime + 1⟩)

/-- Modelled from the spec: `comment.save()` on a fetched record —
persists the mutated record in place of the stored one with the same
primary key. -/
def Store.save (s : Store) (c : Comment) : Store :=
  { s with comments := s.comments.map fun x => if x.pk = c.pk then c else x }

/-- The `_build_error_response(message, status)` helper: the JSON
error envelope. -/
def build_error_response (message : String) (status : Nat) : Response :=
  .error message status

/-- `CommentView.get_queryset`: `Comment.objects.for_model(target).active()`. -/
def CommentView.get_queryset (s : Store) (ct pk : Nat) : List Comment :=
  qsActive (qsForModel ct pk s.objects)

/-- `CommentView.get` (list endpoint, `views.py` lines 48–63):
permission gate, target resolution, then the active queryset for the
target. -/
def CommentView.get (env : Env) (s : Store) (req : Request) (ct pk : Nat) :
    HResult :=
  if env.rootPerms.can_list_comments req.user ct pk = false then
    .ok (build_error_response "Permission denied" 403, s)
  else
    match get_content_type_and_target_or_none env ct pk with
    | none => .ok (build_error_response "Bad content type or object id" 404, s)
    | some (ct', pk') =>
        .ok (.jsonList (CommentView.get_queryset s ct' pk'), s)

/-- `CommentView.post` (create endpoint, `views.py` lines 65–102):
permission gate, target resolution, `json.loads` (which raises on a
malformed body), sanitization of the `comment` field, schema
validation, optional parent lookup within the target's comment set,
then creation. -/
def CommentView.post (env : Env) (s : Store) (req : Request) (ct pk : Nat) :
    HResult :=
  if env.rootPerms.can_create_comment req.user ct pk = false then
    .ok (build_error_response "Permission denied" 403, s)
  else
    match get_content_type_and_target_or_none env ct pk with
    | none => .ok (build_error_response "Bad content type or object id" 404, s)
    | some (ct', pk') =>
        match req.body with
        | none => .error .jsonDecodeError
        | some rawBody =>
            let body : ReqBody :=
              { rawBody with
                  comment := some (sanitize_and_linkify (rawBody.comment.getD "")) }
            let vr := Comment.validate_json body
            if vr.1 = false then
              .ok (build_error_response vr.2 400, s)
            else
              match body.parentID with
              | some parent_id =>
                  match qsGet (qsForModel ct' pk' s.objects) parent_id with
                  | none => .ok (build_error_response "Bad parent" 404, s)
                  | some parent =>
                      let r := s.createComment ct' pk' req.user (some parent.pk)
                        (body.comment.getD "")
                      .ok (.jsonComment r.1, r.2)
              | none =>
                  let r := s.createComment ct' pk' req.user none
                    (body.comment.getD "")
                  .ok (.jsonComment r.1, r.2)

/-- `CommentDetailView.get_queryset`: `Comment.objects.active()` — all
active comments, with no target constraint. -/
def CommentDetailView.get_queryset (s : Store) : List Comment :=
  qsActive s.objects

/-- `CommentDetailView.get` (item fetch, `views.py` lines 112–122):
permission gate, then `get_object_or_404` on the active queryset by
comment id alone. -/
def CommentDetailView.get (env : Env) (s : Store) (req : Request)
    (ct pk cid : Nat) : HResult :=
  if env.detailPerms.can_get_comment req.user ct pk cid = false then
    .ok (build_error_response "Permission denied" 403, s)
  else
    match qsGet (CommentDetailView.get_queryset s) cid with
    | none => .ok (.http404, s)
    | some c => .ok (.jsonComment c, s)

/-- `CommentDetailView.put` (update endpoint, `views.py` lines
124–150): permission gate, comment lookup, `json.loads` (raises on a
malformed body), schema validation of the parsed body, then
sanitization and the non-empty/empty branch. -/
def CommentDetailView.put (env : Env) (s : Store) (req : Request)
    (ct pk cid : Nat) : HResult :=
  if env.detailPerms.can_update_comment req.user ct pk cid = false then
    .ok (build_error_response "Permission denied" 403, s)
  else
    match qsGet (CommentDetailView.get_queryset s) cid with
    | none => .ok (.http404, s)
    | some c =>
        match req.body with
        | none => .error .jsonDecodeError
        | some body =>
            let vr := Comment.validate_json body
            if vr.1 = false then
              .ok (build_error_response vr.2 400, s)
            else
              let text := sanitize_and_linkify (body.comment.getD "")
              if text = "" then
                .ok (.notModified, s)
              else
                let c' := { c with comment := text }
                .ok (.jsonComment c', s.save c')

/-- `CommentDetailView.delete` (delete endpoint, `views.py` lines
152–164): gates on `can_get_comment` (as the code does), looks the
comment up by id on the active queryset, clears its active flag,
saves, and returns 204. -/
def CommentDetailView.delete (env : Env) (s : Store) (req : Request)
    (ct pk cid : Nat) : HResult :=
  if env.detailPerms.can_get_comment req.user ct pk cid = false then
    .ok (build_error_response "Permission denied" 403, s)
  else
    match qsGet (CommentDetailView.get_queryset s) cid with
    | none => .ok (.http404, s)
    | some c =>
        let c' := { c with isActive := false }
        .ok (.noContent, s.save c')

/-- The reference allow-all root policy of `src/public/permissions.py`. -/
def publicRoot : RootPerms :=
  ⟨fun _ _ _ => true, fun _ _ _ => true⟩

/-- The reference allow-all detail policy of `src/public/permissions.py`. -/
def publicDetail : DetailPerms :=
  ⟨fun _ _ _ _ => true, fun _ _ _ _ => true, fun _ _ _ _ => true⟩

/-- A concrete environment with two resolvable targets and the
reference allow-all policies. -/
def allowEnv : Env := ⟨[(1, 1), (2, 2)], publicRoot, publicDetail⟩

/-- A concrete stored comment: pk 5, attached to target (1, 1),
author 10, active. -/
def sampleComment : Comment := ⟨5, 1, 1, 10, none, "hello", true, 0⟩

/-- A concrete store holding just `sampleComment`. -/
def sampleStore : Store := ⟨[sampleComment], 6, 1⟩

/-- A detail policy granting get and update but denying delete. -/
def getNotDeleteDetail : DetailPerms :=
  ⟨fun _ _ _ _ => true, fun _ _ _ _ => true, fun _ _ _ _ => false⟩

/-- An environment whose detail policy denies `can_delete_comment`
while granting `can_get_comment`. -/
def envGetNotDelete : Env := ⟨[(1, 1)], publicRoot, getNotDeleteDetail⟩

/-- An environment whose policies deny every permission. -/
def denyEnv : Env :=
  ⟨[(1, 1)], ⟨fun _ _ _ => false, fun _ _ _ => false⟩,
    ⟨fun _ _ _ _ => false, fun _ _ _ _ => false, fun _ _ _ _ => false⟩⟩

/-- A store exercising the list query: two active comments on target
(1, 1) stored out of creation order, one active comment on target
(2, 2), and one inactive comment on target (1, 1). -/
def listStore : Store :=
  ⟨[⟨1, 1, 1, 10, none, "a", true, 3⟩, ⟨2, 1, 1, 11, none, "b", true, 1⟩,
    ⟨3, 2, 2, 10, none, "c", true, 2⟩, ⟨4, 1, 1, 10, none, "d", false, 0⟩], 5, 4⟩

/-- C1: the delete handler is gated on `can_get_comment`, not on
`can_delete_comment`: under a policy whose `can_delete_comment` always
answers false (but whose `can_get_comment` answers true), the delete
request still proceeds, deactivates the comment, and returns 204
rather than 403.  This contradicts the policy interface's own contract
(`src/public/permissions.py` defines `can_delete_comment`, which
`views.py` line 158 never consults) — the asymmetry the spec itself
flags as a latent defect. -/
theorem delete_handler_ignores_can_delete_comment :
    envGetNotDelete.detailPerms.can_delete_comment 10 1 1 5 = false ∧
    CommentDetailView.delete envGetNotDelete sampleStore ⟨10, none⟩ 1 1 5 =
      .ok (.noContent, ⟨[⟨5, 1, 1, 10, none, "hello", false, 0⟩], 6, 1⟩) :=
  ⟨rfl, rfl⟩

/-- C2: in the update handler the schema validation of `views.py` line
139 runs on the raw parsed body, and sanitization only afterwards
(line 144), contradicting the code's own line-143 comment: a raw body
`{"comment": "   "}` passes raw validation even though its sanitized
value is empty (hence invalid), and the handler answers 304 instead of
a 400 validation failure on the post-sanitized value. -/
theorem put_validates_raw_body_before_sanitizing :
    sanitize_and_linkify "   " = "" ∧
    (Comment.validate_json ⟨some (sanitize_and_linkify "   "), none⟩).1 = false ∧
    (Comment.validate_json ⟨some "   ", none⟩).1 = true ∧
    CommentDetailView.put allowEnv sampleStore ⟨10, some ⟨some "   ", none⟩⟩ 1 1 5 =
      .ok (.notModified, sampleStore) :=
  ⟨rfl, rfl, rfl, rfl⟩

/-- C5: whenever the governing permission predicate of an endpoint
answers false, the handler returns the 403 envelope immediately: the
response is the same constant for every environment and store (so it
is identical across states that differ in whether the target or the
comment exists), the store is returned untouched, and the result is a
response even when the request body would not parse — the handler
never resolves the target, parses the body, or touches the store. -/
theorem unauthorized_request_403_state_independent
    (env : Env) (s : Store) (req : Request) (ct pk cid : Nat) :
    (env.rootPerms.can_list_comments req.user ct pk = false →
      CommentView.get env s req ct pk =
        .ok (build_error_response "Permission denied" 403, s)) ∧
    (env.rootPerms.can_create_comment req.user ct pk = false →
      CommentView.post env s req ct pk =
        .ok (build_error_response "Permission denied" 403, s)) ∧
    (env.detailPerms.can_get_comment req.user ct pk cid = false →
      CommentDetailView.get env s req ct pk cid =
        .ok (build_error_response "Permission denied" 403, s) ∧
      CommentDetailView.delete env s req ct pk cid =
        .ok (build_error_response "Permission denied" 403, s)) ∧
    (env.detailPerms.can_update_comment req.user ct pk cid = false →
      CommentDetailView.put env s req ct pk cid =
        .ok (build_error_response "Permission denied" 403, s)) := by
  refine ⟨fun h => ?_, fun h => ?_, fun h => ⟨?_, ?_⟩, fun h => ?_⟩ <;>
    simp_all [CommentView.get, CommentView.post, CommentDetailView.get,
      CommentDetailView.delete, CommentDetailView.put]

/-- Witness for C5 at a concrete deny-all environment, a request whose
body would not even parse, and a store in which neither the target nor
the comment exists. -/
theorem unauthorized_request_403_state_independent_witness :
    denyEnv.rootPerms.can_list_comments 10 7 8 = false ∧
    CommentView.get denyEnv ⟨[], 0, 0⟩ ⟨10, none⟩ 7 8 =
      .ok (build_error_response "Permission denied" 403, ⟨[], 0, 0⟩) ∧
    CommentView.post denyEnv ⟨[], 0, 0⟩ ⟨10, none⟩ 7 8 =
      .ok (build_error_response "Permission denied" 403, ⟨[], 0, 0⟩) ∧
    CommentDetailView.get denyEnv ⟨[], 0, 0⟩ ⟨10, none⟩ 7 8 9 =
      .ok (build_error_response "Permission denied" 403, ⟨[], 0, 0⟩) ∧
    CommentDetailView.delete denyEnv ⟨[], 0, 0⟩ ⟨10, none⟩ 7 8 9 =
      .ok (build_error_response "Permission denied" 403, ⟨[], 0, 0⟩) ∧
    CommentDetailView.put denyEnv ⟨[], 0, 0⟩ ⟨10, none⟩ 7 8 9 =
      .ok (build_error_response "Permission denied" 403, ⟨[], 0, 0⟩) := by
  have h := unauthorized_request_403_state_independent denyEnv ⟨[], 0, 0⟩ ⟨10, none⟩ 7 8 9
  exact ⟨rfl, h.1 rfl, h.2.1 rfl, (h.2.2.1 rfl).1, (h.2.2.1 rfl).2, h.2.2.2 rfl⟩

/-- C3 counterexample: an authorized item-level get whose
(content_type, object_pk) pair resolves to no target still answers 200
with the comment (looked up by id alone), not the 404 the claim
requires for every endpoint. -/
theorem detail_get_not_404_on_unresolvable_target :
    get_content_type_and_target_or_none allowEnv 99 99 = none ∧
    CommentDetailView.get allowEnv sampleStore ⟨10, none⟩ 99 99 5 =
      .ok (.jsonComment sampleComment, sampleStore) ∧
    (Response.jsonComment sampleComment).status = 200 :=
  ⟨rfl, rfl, rfl⟩

/-- C3 amended: only the collection-level endpoints resolve the
target; for every authorized list or create request whose
(content_type, object_pk) pair does not resolve, the response is the
404 envelope and the store is untouched.  The item-level endpoints
never consult the target resolver. -/
theorem list_and_create_404_on_unresolvable_target
    (env : Env) (s : Store) (req : Request) (ct pk : Nat)
    (hlist : env.rootPerms.can_list_comments req.user ct pk = true)
    (hcreate : env.rootPerms.can_create_comment req.user ct pk = true)
    (htarget : get_content_type_and_target_or_none env ct pk = none) :
    CommentView.get env s req ct pk =
      .ok (build_error_response "Bad content type or object id" 404, s) ∧
    CommentView.post env s req ct pk =
      .ok (build_error_response "Bad content type or object id" 404, s) := by
  constructor <;>
    simp_all [CommentView.get, CommentView.post]

/-- Witness for the amended C3 at the allow-all environment and an
unresolvable (99, 99) pair. -/
theorem list_and_create_404_on_unresolvable_target_witness :
    allowEnv.rootPerms.can_list_comments 10 99 99 = true ∧
    allowEnv.rootPerms.can_create_comment 10 99 99 = true ∧
    get_content_type_and_target_or_none allowEnv 99 99 = none ∧
    CommentView.get allowEnv sampleStore ⟨10, none⟩ 99 99 =
      .ok (build_error_response "Bad content type or object id" 404, sampleStore) ∧
    CommentView.post allowEnv sampleStore ⟨10, none⟩ 99 99 =
      .ok (build_error_response "Bad content type or object id" 404, sampleStore) := by
  have h := list_and_create_404_on_unresolvable_target allowEnv sampleStore
    ⟨10, none⟩ 99 99 rfl rfl rfl
  exact ⟨rfl, rfl, rfl, h.1, h.2⟩

/-- C4 counterexample: an authorized create on a resolvable target
whose body does not parse makes the handler propagate the `json.loads`
exception past the handler boundary instead of returning a 400
response (`views.py` line 79 has no enclosing try/except). -/
theorem post_malformed_body_raises_not_400 :
    CommentView.post allowEnv sampleStore ⟨10, none⟩ 1 1 =
      .error .jsonDecodeError :=
  rfl

/-- C4 amended: the 400 response is produced exactly for bodies that
parse but fail schema validation; a body on which parsing fails makes
the create and update handlers propagate the exception uncaught.  The
hypotheses put the handlers past their permission and
target/comment-resolution gates, and take a body that is
schema-invalid both raw and after sanitization of its comment field. -/
theorem malformed_body_escapes_invalid_body_400
    (env : Env) (s : Store) (u ct pk cid : Nat) (b : ReqBody) (c : Comment)
    (hcreate : env.rootPerms.can_create_comment u ct pk = true)
    (hupdate : env.detailPerms.can_update_comment u ct pk cid = true)
    (htarget : env.targets.contains (ct, pk) = true)
    (hfound : qsGet (CommentDetailView.get_queryset s) cid = some c)
    (hinvs : (Comment.validate_json
      { b with comment := some (sanitize_and_linkify (b.comment.getD "")) }).1 = false)
    (hinvr : (Comment.validate_json b).1 = false) :
    CommentView.post env s ⟨u, none⟩ ct pk = .error .jsonDecodeError ∧
    CommentDetailView.put env s ⟨u, none⟩ ct pk cid = .error .jsonDecodeError ∧
    CommentView.post env s ⟨u, some b⟩ ct pk =
      .ok (build_error_response
        (Comment.validate_json
          { b with comment := some (sanitize_and_linkify (b.comment.getD "")) }).2 400, s) ∧
    CommentDetailView.put env s ⟨u, some b⟩ ct pk cid =
      .ok (build_error_response (Comment.validate_json b).2 400, s) := by
  refine ⟨?_, ?_, ?_, ?_⟩ <;>
    simp_all [CommentView.post, CommentDetailView.put,
      get_content_type_and_target_or_none]

/-- Witness for the amended C4: concrete body `{}` (no comment field),
which is invalid raw and sanitizes to the empty string, on the
allow-all environment. -/
theorem malformed_body_escapes_invalid_body_400_witness :
    (Comment.validate_json
      { (⟨none, none⟩ : ReqBody) with
          comment := some (sanitize_and_linkify (((⟨none, none⟩ : ReqBody)).comment.getD "")) }).1
        = false ∧
    (Comment.validate_json (⟨none, none⟩ : ReqBody)).1 = false ∧
    CommentView.post allowEnv sampleStore ⟨10, none⟩ 1 1 = .error .jsonDecodeError ∧
    CommentDetailView.put allowEnv sampleStore ⟨10, none⟩ 1 1 5 = .error .jsonDecodeError ∧
    CommentView.post allowEnv sampleStore ⟨10, some ⟨none, none⟩⟩ 1 1 =
      .ok (build_error_response "comment must be non-empty" 400, sampleStore) ∧
    CommentDetailView.put allowEnv sampleStore ⟨10, some ⟨none, none⟩⟩ 1 1 5 =
      .ok (build_error_response "comment field is required" 400, sampleStore) := by
  have h := malformed_body_escapes_invalid_body_400 allowEnv sampleStore 10 1 1 5
    ⟨none, none⟩ sampleComment rfl rfl rfl rfl rfl rfl
  exact ⟨rfl, rfl, h.1, h.2.1, h.2.2.1, h.2.2.2⟩

/-- C6 counterexample: an authorized update of an existing active
comment whose comment field is the raw empty string — which sanitizes
to the empty string — receives the 400 validation envelope (raw
validation fails first), not the 304 the claim promises for every
sanitizes-to-empty body. -/
theorem put_raw_empty_comment_400_not_304 :
    sanitize_and_linkify "" = "" ∧
    CommentDetailView.put allowEnv sampleStore ⟨10, some ⟨some "", none⟩⟩ 1 1 5 =
      .ok (build_error_response "comment must be non-empty" 400, sampleStore) ∧
    (build_error_response "comment must be non-empty" 400).status = 400 :=
  ⟨rfl, rfl, rfl⟩

/-- C6 amended: for every authorized update of an existing active
comment whose parsed body passes (raw) schema validation: if the
comment field sanitizes to the empty string the handler answers 304
and returns the store exactly as it was (every field of every stored
comment unchanged); if the sanitized text is non-empty the comment's
body is replaced by it, the change is saved, and the handler answers
200 with the updated comment. -/
theorem put_empty_304_unchanged_nonempty_200
    (env : Env) (s : Store) (req : Request) (ct pk cid : Nat)
    (c : Comment) (b : ReqBody)
    (hperm : env.detailPerms.can_update_comment req.user ct pk cid = true)
    (hfound : qsGet (CommentDetailView.get_queryset s) cid = some c)
    (hbody : req.body = some b)
    (hvalid : (Comment.validate_json b).1 = true) :
    (sanitize_and_linkify (b.comment.getD "") = "" →
      CommentDetailView.put env s req ct pk cid = .ok (.notModified, s)) ∧
    (sanitize_and_linkify (b.comment.getD "") ≠ "" →
      CommentDetailView.put env s req ct pk cid =
        .ok (.jsonComment { c with comment := sanitize_and_linkify (b.comment.getD "") },
          s.save { c with comment := sanitize_and_linkify (b.comment.getD "") })) := by
  constructor <;> intro hs <;>
    simp_all [CommentDetailView.put]

/-- Witness for the amended C6, 304 branch: the spec's own test body
`{"comment": "   "}` on the stored active comment; the store comes
back untouched. -/
theorem put_empty_304_unchanged_nonempty_200_witness :
    (Comment.validate_json ⟨some "   ", none⟩).1 = true ∧
    sanitize_and_linkify "   " = "" ∧
    CommentDetailView.put allowEnv sampleStore ⟨10, some ⟨some "   ", none⟩⟩ 1 1 5 =
      .ok (.notModified, sampleStore) := by
  have h := put_empty_304_unchanged_nonempty_200 allowEnv sampleStore
    ⟨10, some ⟨some "   ", none⟩⟩ 1 1 5 sampleComment ⟨some "   ", none⟩ rfl rfl rfl rfl
  exact ⟨rfl, rfl, h.1 rfl⟩

/-- Unpacking a successful item lookup: the record found on the active
queryset is a stored record, carries the requested primary key, and is
active. -/
theorem qsGet_active_spec {s : Store} {cid : Nat} {c : Comment}
    (h : qsGet (CommentDetailView.get_queryset s) cid = some c) :
    c ∈ s.comments ∧ c.pk = cid ∧ c.isActive = true := by
  unfold qsGet CommentDetailView.get_queryset qsActive Store.objects at h
  have hp := List.find?_some h
  have hmem := List.mem_of_find?_eq_some h
  have hmem' := List.mem_filter.mp hmem
  simp only [beq_iff_eq] at hp
  exact ⟨(List.mem_insertionSort createdLe).mp hmem'.1, hp, hmem'.2⟩

/-- After saving an inactive record, the active queryset no longer
resolves its primary key: every stored record with that key has been
replaced by the inactive one, and inactive records are filtered out of
every read query. -/
theorem qsGet_active_save_inactive (s : Store) (c : Comment) (cid : Nat)
    (hc : c.isActive = false) (hcpk : c.pk = cid) :
    qsGet (CommentDetailView.get_queryset (s.save c)) cid = none := by
  unfold qsGet CommentDetailView.get_queryset qsActive Store.objects Store.save
  rw [List.find?_eq_none]
  intro x hx
  have hx' := List.mem_filter.mp hx
  have hxmem := (List.mem_insertionSort createdLe).mp hx'.1
  simp only [List.mem_map] at hxmem
  obtain ⟨y, _, hy⟩ := hxmem
  by_cases hpk : y.pk = c.pk
  · rw [if_pos hpk] at hy
    rw [hy] at hc
    rw [hc] at hx'
    exact absurd hx'.2 (by simp)
  · rw [if_neg hpk] at hy
    rw [← hy, ← hcpk]
    simpa using hpk

/-- C7: delete is soft.  An authorized delete (gated, as the code is,
on `can_get_comment`) of an existing active comment clears the active
flag, saves, and answers 204; the deactivated record is still present
in the store; and every subsequent authorized item get on the same
comment id answers the standard 404, because inactive comments are
excluded from every read queryset. -/
theorem soft_delete_204_record_kept_get_404
    (env : Env) (s : Store) (req : Request) (ct pk cid : Nat) (c : Comment)
    (hperm : env.detailPerms.can_get_comment req.user ct pk cid = true)
    (hfound : qsGet (CommentDetailView.get_queryset s) cid = some c) :
    CommentDetailView.delete env s req ct pk cid =
      .ok (.noContent, s.save { c with isActive := false }) ∧
    ({ c with isActive := false } : Comment) ∈
      (s.save { c with isActive := false }).comments ∧
    ∀ (env2 : Env) (req2 : Request) (ct2 pk2 : Nat),
      env2.detailPerms.can_get_comment req2.user ct2 pk2 cid = true →
      CommentDetailView.get env2 (s.save { c with isActive := false }) req2 ct2 pk2 cid =
        .ok (.http404, s.save { c with isActive := false }) := by
  obtain ⟨hmem, hpk, _⟩ := qsGet_active_spec hfound
  refine ⟨?_, ?_, ?_⟩
  · simp [CommentDetailView.delete, hperm, hfound]
  · unfold Store.save
    exact List.mem_map.mpr ⟨c, hmem, by simp⟩
  · intro env2 req2 ct2 pk2 hperm2
    have hnone := qsGet_active_save_inactive s { c with isActive := false } cid rfl hpk
    simp [CommentDetailView.get, hperm2, hnone]

/-- Witness for C7: deleting the stored active comment pk 5 under the
allow-all policy, then getting it again. -/
theorem soft_delete_204_record_kept_get_404_witness :
    allowEnv.detailPerms.can_get_comment 10 1 1 5 = true ∧
    qsGet (CommentDetailView.get_queryset sampleStore) 5 = some sampleComment ∧
    CommentDetailView.delete allowEnv sampleStore ⟨10, none⟩ 1 1 5 =
      .ok (.noContent, sampleStore.save { sampleComment with isActive := false }) ∧
    ({ sampleComment with isActive := false } : Comment) ∈
      (sampleStore.save { sampleComment with isActive := false }).comments ∧
    CommentDetailView.get allowEnv
      (sampleStore.save { sampleComment with isActive := false }) ⟨10, none⟩ 1 1 5 =
      .ok (.http404, sampleStore.save { sampleComment with isActive := false }) := by
  have h := soft_delete_204_record_kept_get_404 allowEnv sampleStore ⟨10, none⟩ 1 1 5
    sampleComment rfl rfl
  exact ⟨rfl, rfl, h.1, h.2.1, h.2.2 allowEnv ⟨10, none⟩ 1 1 rfl⟩

/-- C8: an authorized, schema-valid create on a resolvable target
whose body carries a `parentID` that no comment of that target's
comment set bears — in particular one referencing a comment of a
different target — answers the 404 "Bad parent" envelope and leaves
the store exactly as it was: no comment is created. -/
theorem create_bad_parent_404_no_comment_created
    (env : Env) (s : Store) (u ct pk pid : Nat) (b : ReqBody)
    (hperm : env.rootPerms.can_create_comment u ct pk = true)
    (htarget : env.targets.contains (ct, pk) = true)
    (hvalid : (Comment.validate_json
      { b with comment := some (sanitize_and_linkify (b.comment.getD "")) }).1 = true)
    (hpid : b.parentID = some pid)
    (hmiss : qsGet (qsForModel ct pk s.objects) pid = none) :
    CommentView.post env s ⟨u, some b⟩ ct pk =
      .ok (build_error_response "Bad parent" 404, s) := by
  simp_all [CommentView.post, get_content_type_and_target_or_none]

/-- Witness for C8: the stored comment pk 5 belongs to target (1, 1);
a create on target (2, 2) naming it as parent gets "Bad parent". -/
theorem create_bad_parent_404_no_comment_created_witness :
    allowEnv.rootPerms.can_create_comment 10 2 2 = true ∧
    allowEnv.targets.contains (2, 2) = true ∧
    (Comment.validate_json
      { (⟨some "hi", some 5⟩ : ReqBody) with
          comment := some (sanitize_and_linkify
            ((⟨some "hi", some 5⟩ : ReqBody).comment.getD "")) }).1 = true ∧
    qsGet (qsForModel 2 2 sampleStore.objects) 5 = none ∧
    CommentView.post allowEnv sampleStore ⟨10, some ⟨some "hi", some 5⟩⟩ 2 2 =
      .ok (build_error_response "Bad parent" 404, sampleStore) := by
  have h := create_bad_parent_404_no_comment_created allowEnv sampleStore 10 2 2 5
    ⟨some "hi", some 5⟩ rfl rfl rfl rfl rfl
  exact ⟨rfl, rfl, rfl, rfl, h⟩

/-- C9: an authorized list on a resolvable target answers 200 with the
queryset, and that queryset holds exactly the stored comments attached
to the requested target whose active flag is set — no others — ordered
by creation time ascending. -/
theorem list_exactly_active_target_comments_sorted
    (env : Env) (s : Store) (req : Request) (ct pk : Nat)
    (hperm : env.rootPerms.can_list_comments req.user ct pk = true)
    (htarget : env.targets.contains (ct, pk) = true) :
    CommentView.get env s req ct pk =
      .ok (.jsonList (CommentView.get_queryset s ct pk), s) ∧
    (∀ c : Comment, c ∈ CommentView.get_queryset s ct pk ↔
      c ∈ s.comments ∧ c.contentType = ct ∧ c.objectPk = pk ∧ c.isActive = true) ∧
    List.Sorted createdLe (CommentView.get_queryset s ct pk) := by
  refine ⟨?_, ?_, ?_⟩
  · have hmem : (ct, pk) ∈ env.targets := by simpa using htarget
    simp [CommentView.get, get_content_type_and_target_or_none, hmem, hperm]
  · intro c
    simp only [CommentView.get_queryset, qsActive, qsForModel, Store.objects,
      List.mem_filter, List.mem_insertionSort, Bool.and_eq_true, beq_iff_eq]
    tauto
  · have hs := List.sorted_insertionSort createdLe s.comments
    exact List.Pairwise.sublist
      ((List.filter_sublist _).trans (List.filter_sublist _)) hs

/-- Witness for C9 on `listStore`, whose records are stored out of
creation order and include another target's comment and an inactive
one. -/
theorem list_exactly_active_target_comments_sorted_witness :
    allowEnv.rootPerms.can_list_comments 10 1 1 = true ∧
    allowEnv.targets.contains (1, 1) = true ∧
    CommentView.get allowEnv listStore ⟨10, none⟩ 1 1 =
      .ok (.jsonList (CommentView.get_queryset listStore 1 1), listStore) ∧
    ((⟨2, 1, 1, 11, none, "b", true, 1⟩ : Comment) ∈
        CommentView.get_queryset listStore 1 1 ↔
      (⟨2, 1, 1, 11, none, "b", true, 1⟩ : Comment) ∈ listStore.comments ∧
        (1 : Nat) = 1 ∧ (1 : Nat) = 1 ∧ true = true) ∧
    List.Sorted createdLe (CommentView.get_queryset listStore 1 1) := by
  have h := list_exactly_active_target_comments_sorted allowEnv listStore
    ⟨10, none⟩ 1 1 rfl rfl
  exact ⟨rfl, rfl, h.1, h.2.1 ⟨2, 1, 1, 11, none, "b", true, 1⟩, h.2.2⟩

/-- C10: the item-level handlers look the comment up by id alone on
the set of all active comments; the (content_type, object_pk) path
parameters reach only the permission predicate.  So with a path naming
a target the comment does not belong to, an authorized request still
reads it (200), updates it, or deactivates it; and changing the path's
target pair changes nothing as long as the permission predicate still
grants the request. -/
theorem detail_ops_ignore_target_path_params
    (env : Env) (s : Store) (req : Request) (ct pk cid : Nat) (c : Comment)
    (hfound : qsGet (CommentDetailView.get_queryset s) cid = some c)
    (_hmis : ¬(c.contentType = ct ∧ c.objectPk = pk))
    (hget : env.detailPerms.can_get_comment req.user ct pk cid = true)
    (hupd : env.detailPerms.can_update_comment req.user ct pk cid = true) :
    CommentDetailView.get env s req ct pk cid = .ok (.jsonComment c, s) ∧
    CommentDetailView.delete env s req ct pk cid =
      .ok (.noContent, s.save { c with isActive := false }) ∧
    (∀ b : ReqBody, req.body = some b → (Comment.validate_json b).1 = true →
      sanitize_and_linkify (b.comment.getD "") ≠ "" →
      CommentDetailView.put env s req ct pk cid =
        .ok (.jsonComment { c with comment := sanitize_and_linkify (b.comment.getD "") },
          s.save { c with comment := sanitize_and_linkify (b.comment.getD "") })) ∧
    (∀ ct2 pk2 : Nat,
      env.detailPerms.can_get_comment req.user ct2 pk2 cid = true →
      CommentDetailView.get env s req ct2 pk2 cid =
        CommentDetailView.get env s req ct pk cid) := by
  refine ⟨?_, ?_, ?_, ?_⟩
  · simp [CommentDetailView.get, hget, hfound]
  · simp [CommentDetailView.delete, hget, hfound]
  · intro b hb hv hs
    simp_all [CommentDetailView.put]
  · intro ct2 pk2 h2
    simp [CommentDetailView.get, hget, h2]

/-- Witness for C10: the stored active comment pk 5 belongs to target
(1, 1); the request path names target (2, 2). -/
theorem detail_ops_ignore_target_path_params_witness :
    qsGet (CommentDetailView.get_queryset sampleStore) 5 = some sampleComment ∧
    ¬(sampleComment.contentType = 2 ∧ sampleComment.objectPk = 2) ∧
    CommentDetailView.get allowEnv sampleStore ⟨10, some ⟨some "x", none⟩⟩ 2 2 5 =
      .ok (.jsonComment sampleComment, sampleStore) ∧
    CommentDetailView.delete allowEnv sampleStore ⟨10, some ⟨some "x", none⟩⟩ 2 2 5 =
      .ok (.noContent, sampleStore.save { sampleComment with isActive := false }) ∧
    CommentDetailView.put allowEnv sampleStore ⟨10, some ⟨some "x", none⟩⟩ 2 2 5 =
      .ok (.jsonComment { sampleComment with comment := sanitize_and_linkify "x" },
        sampleStore.save { sampleComment with comment := sanitize_and_linkify "x" }) := by
  have h := detail_ops_ignore_target_path_params allowEnv sampleStore
    ⟨10, some ⟨some "x", none⟩⟩ 2 2 5 sampleComment rfl (by decide) rfl rfl
  exact ⟨rfl, by decide, h.1, h.2.1, h.2.2.1 ⟨some "x", none⟩ rfl rfl (by decide)⟩
